import Mathlib

/-!
Shallow embedding of the RGB Core contract-state commitment and validation
subsystem (src/contract/fungible.rs, src/contract/attachment.rs,
src/validation/state.rs, src/vm/script.rs), together with theorems settling
the specification claims about it.

Rust machine integers are modelled as `Nat` (with explicit `% 2 ^ w` where
overflow or byte-splitting matters), fallible Rust code as `Option`/`Except`,
and an unconditional Rust `panic!`/`expect` as an `Except`-error of type
`Abort` carrying the panic message.
-/

namespace RgbCore

/-- Model of an unconditional Rust panic (`panic!` / `.expect(...)`): the
computation aborts with a message instead of returning. -/
structure Abort where
  msg : String
deriving DecidableEq

/-- Operation id (32-byte `OpId`), modelled as a natural number. -/
abbrev OpId := Nat

/-- `schema::AssignmentType` (a `u16` wrapper), modelled as a natural number. -/
abbrev AssignmentType := Nat

/-- `TransitionType` (`u16` wrapper). -/
abbrev TransitionType := Nat

/-- `ExtensionType` (`u16` wrapper). -/
abbrev ExtensionType := Nat

/-- `GlobalStateType` (`u16` wrapper). -/
abbrev GlobalStateType := Nat

/-- `amplify::Bytes32`: a 32-byte array, modelled as a list of byte values. -/
structure Bytes32 where
  bytes : List Nat
deriving DecidableEq

/-! ## Fungible state (src/contract/fungible.rs) -/

/-- `FungibleState`: an atom of additive state; currently a single 64-bit
variant (`Bits64`, strict tag 8). -/
inductive FungibleState
  | Bits64 (v : Nat)
deriving DecidableEq

/-- `schema::FungibleType`. Modelled from the spec: the schema-side fungible
subtype enumeration (not under src/); the only current variant is the
64-bit unsigned one matching `FungibleState::Bits64`. -/
inductive FungibleType
  | Unsigned64Bit
deriving DecidableEq

/-- `FungibleState::fungible_type`: maps the state variant to its schema
subtype. -/
def FungibleState.fungible_type : FungibleState → FungibleType
  | .Bits64 _ => .Unsigned64Bit

/-- `BlindingFactor`: a 32-byte scalar wrapper over `Bytes32`. -/
structure BlindingFactor where
  b : Bytes32
deriving DecidableEq

/-- The Secp256k1 scalar-field (curve group) order, used by the model of
`secp256k1_zkp::SecretKey::from_slice`. -/
def secpOrder : Nat :=
  0xFFFFFFFFFFFFFFFFFFFFFFFFFFFFFFFEBAAEDCE6AF48A03BBFD25E8CD0364141

/-- Big-endian value of a byte list. -/
def beVal (l : List Nat) : Nat := l.foldl (fun acc b => acc * 256 + b % 256) 0

/-- Modelled from the spec: `secp256k1_zkp::SecretKey` (external secp256k1
library, not under src/) — a 32-byte scalar that is a valid (nonzero,
below-order) element of the curve's scalar field. -/
structure SecretKey where
  bytes : List Nat
deriving DecidableEq

/-- Modelled from the spec: `secp256k1_zkp::SecretKey::from_slice` (external,
not under src/) — succeeds exactly when given 32 bytes whose big-endian value
is a valid scalar: nonzero and below the curve order. -/
def SecretKey.from_slice (l : List Nat) : Option SecretKey :=
  if l.length = 32 ∧ 0 < beVal l ∧ beVal l < secpOrder then some ⟨l⟩ else none

/-- Hex-digit value of a character, `none` for a non-hex character. -/
def hexVal (c : Char) : Option Nat :=
  if '0' ≤ c ∧ c ≤ '9' then some (c.toNat - 48)
  else if 'a' ≤ c ∧ c ≤ 'f' then some (c.toNat - 87)
  else if 'A' ≤ c ∧ c ≤ 'F' then some (c.toNat - 55)
  else none

/-- Parse a hex character list into bytes (two characters per byte). -/
def parseHexBytes : List Char → Option (List Nat)
  | [] => some []
  | [_] => none
  | c1 :: c2 :: rest => do
    let hi ← hexVal c1
    let lo ← hexVal c2
    let r ← parseHexBytes rest
    pure ((hi * 16 + lo) :: r)

/-- `Bytes32::from_hex` (via amplify's `FromHex`): parses exactly 64 hex
characters into 32 bytes; performs no range check on the value. -/
def Bytes32.from_hex (s : List Char) : Option Bytes32 :=
  match parseHexBytes s with
  | some bs => if bs.length = 32 then some ⟨bs⟩ else none
  | none => none

/-- `FromHex`/`FromStr` for `BlindingFactor`: delegates to `Bytes32::from_hex`
and wraps the result, with no scalar-field validity check. -/
def BlindingFactor.from_hex (s : List Char) : Option BlindingFactor :=
  (Bytes32.from_hex s).map BlindingFactor.mk

/-- `FromStr for BlindingFactor`: identical to `from_hex`. -/
def BlindingFactor.from_str (s : List Char) : Option BlindingFactor :=
  BlindingFactor.from_hex s

/-- The `FieldOrderOverflow` construction error (a unit struct in the
source). -/
structure FieldOrderOverflow where
deriving DecidableEq

/-- `TryFrom<[u8; 32]> for BlindingFactor`: validates the bytes through
`SecretKey::from_slice`, failing with `FieldOrderOverflow` when they are not
a valid scalar. -/
def BlindingFactor.try_from (array : List Nat) :
    Except FieldOrderOverflow BlindingFactor :=
  match SecretKey.from_slice array with
  | some key => .ok ⟨⟨key.bytes⟩⟩
  | none => .error ⟨⟩

/-- `From<BlindingFactor> for secp256k1_zkp::SecretKey`: rebuilds the secret
key from the raw bytes, with `.expect("blinding factor is an invalid secret
key")` on failure — modelled as an aborting conversion. -/
def BlindingFactor.to_secret_key (bf : BlindingFactor) : Except Abort SecretKey :=
  match SecretKey.from_slice bf.b.bytes with
  | some key => .ok key
  | none => .error ⟨"blinding factor is an invalid secret key"⟩

/-- `RevealedValue`: disclosed fungible state — value plus blinding factor. -/
structure RevealedValue where
  value : FungibleState
  blinding : BlindingFactor
deriving DecidableEq

/-- `PedersenCommitment`: a 33-byte compressed curve point, modelled by its
serialized bytes. -/
structure PedersenCommitment where
  bytes : List Nat
deriving DecidableEq

/-- `NoiseDumb`: a 512-byte placeholder blob for a future bulletproof,
modelled by its bytes. -/
structure NoiseDumb where
  bytes : List Nat
deriving DecidableEq

/-- `RangeProof`: today only the `Placeholder` variant (strict tag 0xFF)
exists. -/
inductive RangeProof
  | Placeholder (noise : NoiseDumb)
deriving DecidableEq

/-- `ConcealedValue`: concealed fungible state — Pedersen commitment plus
range proof. -/
structure ConcealedValue where
  commitment : PedersenCommitment
  range_proof : RangeProof
deriving DecidableEq

/-- `CommitEncode` for `PedersenCommitment` (strategy = strict): the
commitment hasher consumes the 33 serialized point bytes. -/
def PedersenCommitment.commit_encode (p : PedersenCommitment) : List Nat :=
  p.bytes

/-- Derived `CommitEncode` for `ConcealedValue`: the `commitment` field is
commit-encoded and the `range_proof` field carries `#[commit_encode(skip)]`,
so only the commitment enters the digest input. -/
def ConcealedValue.commit_encode (cv : ConcealedValue) : List Nat :=
  cv.commitment.commit_encode

/-- `CommitVerify<RevealedValue, PedersenProtocol>::commit` for
`ConcealedValue`: unconditionally panics ("current version of RGB Core does
not support production of bulletproofs; thus, fungible state must be never
concealed"); the code after the panic is unreachable. -/
def ConcealedValue.commit (_revealed : RevealedValue) :
    Except Abort ConcealedValue :=
  .error ⟨"Error: current version of RGB Core does not support production of bulletproofs; thus, fungible state must be never concealed"⟩

/-- `Conceal for RevealedValue`: delegates to `ConcealedValue::commit`. -/
def RevealedValue.conceal (r : RevealedValue) : Except Abort ConcealedValue :=
  ConcealedValue.commit r

/-- `ConcealedValue::verify`: matches the range proof; the `Placeholder`
variant yields `false`. -/
def ConcealedValue.verify (cv : ConcealedValue) : Bool :=
  match cv.range_proof with
  | .Placeholder _ => false

/-- `RangeProofError`: errors verifying range proofs. -/
inductive RangeProofError
  | InvalidBlinding (bf : BlindingFactor)
  | BulletproofsAbsent
deriving DecidableEq

/-- Display string of a `RangeProofError` (from its doc-comment display
derivation). -/
def RangeProofError.toString : RangeProofError → String
  | .InvalidBlinding _ => "invalid blinding factor"
  | .BulletproofsAbsent =>
    "bulletproofs verification is not implemented in RGB Core v0.10. Please update your software and try again, or ask your software producer to use latest RGB release."

/-- `ConcealedValue::verify_range_proof`: unconditionally returns the
`BulletproofsAbsent` error. -/
def ConcealedValue.verify_range_proof (_cv : ConcealedValue) :
    Except RangeProofError Bool :=
  .error .BulletproofsAbsent

/-! ## Claims C2, C3, C6 -/

/-- C2: for every `ConcealedValue`, `verify` returns `false` and
`verify_range_proof` returns the `BulletproofsAbsent` error; neither ever
reports the proof as valid. -/
theorem C2_placeholder_proof_never_valid (cv : ConcealedValue) :
    cv.verify = false ∧
    cv.verify_range_proof = .error RangeProofError.BulletproofsAbsent := by
  constructor
  · cases cv with
    | mk c rp => cases rp with
      | Placeholder n => rfl
  · rfl

/-- C3: concealing a `RevealedValue` (`RevealedValue::conceal` /
`ConcealedValue::commit`) is an unconditional abort: for every input it
returns the fatal error (so it never returns a `ConcealedValue` and never
fabricates a range proof). -/
theorem C3_fungible_conceal_always_aborts (r : RevealedValue) :
    RevealedValue.conceal r = ConcealedValue.commit r ∧
    ConcealedValue.commit r =
      .error ⟨"Error: current version of RGB Core does not support production of bulletproofs; thus, fungible state must be never concealed"⟩ :=
  ⟨rfl, rfl⟩

/-- C6: the commit-encoding of a `ConcealedValue` depends only on its
Pedersen commitment: equal commitments yield byte-identical commit
encodings regardless of the range proofs. -/
theorem C6_commit_encode_ignores_range_proof (a b : ConcealedValue)
    (h : a.commitment = b.commitment) :
    a.commit_encode = b.commit_encode := by
  unfold ConcealedValue.commit_encode
  rw [h]

/-- Witness for C6: two concealed values sharing a commitment but with
different range proofs have identical commit encodings. -/
theorem C6_commit_encode_ignores_range_proof_witness :
    (ConcealedValue.mk ⟨[8, 8, 8]⟩ (.Placeholder ⟨[0]⟩)).commit_encode =
    (ConcealedValue.mk ⟨[8, 8, 8]⟩ (.Placeholder ⟨[1]⟩)).commit_encode :=
  C6_commit_encode_ignores_range_proof
    (ConcealedValue.mk ⟨[8, 8, 8]⟩ (.Placeholder ⟨[0]⟩))
    (ConcealedValue.mk ⟨[8, 8, 8]⟩ (.Placeholder ⟨[1]⟩)) rfl

/-! ## Attachment state (src/contract/attachment.rs) -/

/-- `AttachId`: unique 32-byte data attachment identifier. -/
structure AttachId where
  b : Bytes32
deriving DecidableEq

/-- Modelled from the spec: `MediaType` (declared outside src/) — a media
type with a type and subtype part, where a wildcard part permits any
value. -/
structure MediaType where
  ty : String
  subty : String
deriving DecidableEq

/-- Modelled from the spec: `MediaType::conforms` — the media type matches or
is permitted by the schema-declared media type (a wildcard part of the
schema type permits any corresponding part). -/
def MediaType.conforms (self schema : MediaType) : Bool :=
  (schema.ty = "*" || schema.ty = self.ty) &&
  (schema.subty = "*" || schema.subty = self.subty)

/-- `RevealedAttach`: disclosed attachment state — id, media type and a
64-bit salt. -/
structure RevealedAttach where
  id : AttachId
  media_type : MediaType
  salt : Nat
deriving DecidableEq

/-- Little-endian byte decomposition of a value into `w` bytes. -/
def leBytes (n w : Nat) : List Nat := (List.range w).map fun i => n / 256 ^ i % 256

/-- Byte encoding of a string (length-prefixed code points), used by the
canonical encoding model of `MediaType`. -/
def stringBytes (s : String) : List Nat :=
  s.length :: s.toList.map Char.toNat

/-- Modelled from the spec: the canonical strict encoding of a
`RevealedAttach` (the strict-encoding framework is an external
collaborator) — a deterministic byte serialization of id, media type and
salt (8 little-endian bytes). -/
def RevealedAttach.strict_encode (r : RevealedAttach) : List Nat :=
  r.id.b.bytes ++ stringBytes r.media_type.ty ++ stringBytes r.media_type.subty ++
    leBytes r.salt 8

/-- Modelled from the spec: the hash-commitment primitive
(`Bytes32::commit`, Sha256 over the canonical strict encoding, provided by
the external commit_verify crate) — a deterministic 32-byte digest of the
input bytes; the concrete compression function is a model stand-in. -/
def commitDigest (input : List Nat) : Bytes32 :=
  ⟨leBytes (input.foldl (fun acc b => (acc * 65599 + b % 256 + 1) % 2 ^ 256) 1) 32⟩

/-- `ConcealedAttach`: a 32-byte commitment to a `RevealedAttach`. -/
structure ConcealedAttach where
  b : Bytes32
deriving DecidableEq

/-- `CommitVerify<RevealedAttach, StrictEncodedProtocol>::commit` for
`ConcealedAttach`: the hash commitment over the canonical encoding of the
revealed attachment. -/
def ConcealedAttach.commit (revealed : RevealedAttach) : ConcealedAttach :=
  ⟨commitDigest revealed.strict_encode⟩

/-- `Conceal for RevealedAttach`: delegates to `ConcealedAttach::commit`. -/
def RevealedAttach.conceal (r : RevealedAttach) : ConcealedAttach :=
  ConcealedAttach.commit r

/-! ## Claims C4, C10 -/

/-- C4: attachment concealment is a pure deterministic function: any two
revealed attachments with equal id, media type and salt (in particular the
same one concealed any number of times) yield equal commitments. -/
theorem C4_attach_conceal_deterministic (r1 r2 : RevealedAttach)
    (hid : r1.id = r2.id) (hmt : r1.media_type = r2.media_type)
    (hsalt : r1.salt = r2.salt) :
    r1.conceal = r2.conceal ∧ r1.conceal = ConcealedAttach.commit r1 := by
  cases r1; cases r2
  cases hid; cases hmt; cases hsalt
  exact ⟨rfl, rfl⟩

/-- Witness for C4: two field-equal revealed attachments produce the same
commitment. -/
theorem C4_attach_conceal_deterministic_witness :
    (RevealedAttach.mk ⟨⟨[1, 2]⟩⟩ ⟨"image", "png"⟩ 5).conceal =
      (RevealedAttach.mk ⟨⟨[1, 2]⟩⟩ ⟨"image", "png"⟩ 5).conceal ∧
    (RevealedAttach.mk ⟨⟨[1, 2]⟩⟩ ⟨"image", "png"⟩ 5).conceal =
      ConcealedAttach.commit (RevealedAttach.mk ⟨⟨[1, 2]⟩⟩ ⟨"image", "png"⟩ 5) :=
  C4_attach_conceal_deterministic
    (RevealedAttach.mk ⟨⟨[1, 2]⟩⟩ ⟨"image", "png"⟩ 5)
    (RevealedAttach.mk ⟨⟨[1, 2]⟩⟩ ⟨"image", "png"⟩ 5) rfl rfl rfl

/-- C10: the 64-character all-f hex string parses successfully into a
`BlindingFactor` through `from_str`/`from_hex` (no scalar-field check),
while `TryFrom<[u8; 32]>` on the same 32 bytes fails with
`FieldOrderOverflow`, and converting the resulting factor into a secret key
hits the fatal error branch. -/
theorem C10_from_hex_bypasses_scalar_check :
    BlindingFactor.from_str (List.replicate 64 'f') =
      some ⟨⟨List.replicate 32 255⟩⟩ ∧
    BlindingFactor.from_hex (List.replicate 64 'f') =
      some ⟨⟨List.replicate 32 255⟩⟩ ∧
    BlindingFactor.try_from (List.replicate 32 255) = .error ⟨⟩ ∧
    BlindingFactor.to_secret_key ⟨⟨List.replicate 32 255⟩⟩ =
      .error ⟨"blinding factor is an invalid secret key"⟩ := by
  refine ⟨by decide, by decide, by rfl, by rfl⟩

/-! ## Schema-driven validation engine (src/validation/state.rs) -/

/-- `StateType`: the four state kinds. Modelled from the spec: declared
outside src/ and used by `state_type()` accessors. -/
inductive StateType
  | Void
  | Fungible
  | Structured
  | Attachment
deriving DecidableEq

/-- `strict_types::SemId`: a semantic type id, modelled as a natural
number. -/
abbrev SemId := Nat

/-- `StateSchema`: per-slot schema declaration. Modelled from the spec:
declared outside src/ — one of declarative/no-value, fungible-of-subtype,
structured-against-semantic-type-id, attachment-with-media-type. -/
inductive StateSchema
  | Declarative
  | Fungible (t : FungibleType)
  | Structured (semId : SemId)
  | Attachment (mediaType : MediaType)
deriving DecidableEq

/-- `StateSchema::state_type`: the state kind a schema variant declares. -/
def StateSchema.state_type : StateSchema → StateType
  | .Declarative => .Void
  | .Fungible _ => .Fungible
  | .Structured _ => .Structured
  | .Attachment _ => .Attachment

/-- Modelled from the spec: `ConcealedData` (declared outside src/) — the
32-byte commitment to structured state. -/
structure ConcealedData where
  b : Bytes32
deriving DecidableEq

/-- Modelled from the spec: `RevealedData` (declared outside src/) — the raw
structured-state payload bytes (`as_ref` returns them). -/
structure RevealedData where
  bytes : List Nat
deriving DecidableEq

/-- `StateCommitment`: the concealed form of each state kind. Modelled from
the spec (declared outside src/): this is what `state_commitment()` of each
confidential state injects into. -/
inductive StateCommitment
  | Void
  | Fungible (v : ConcealedValue)
  | Structured (d : ConcealedData)
  | Attachment (a : ConcealedAttach)
deriving DecidableEq

/-- `StateCommitment::state_type`. -/
def StateCommitment.state_type : StateCommitment → StateType
  | .Void => .Void
  | .Fungible _ => .Fungible
  | .Structured _ => .Structured
  | .Attachment _ => .Attachment

/-- `StateData`: the revealed form of each state kind. Modelled from the
spec (declared outside src/): this is what `state_data()` of each exposed
state injects into. -/
inductive StateData
  | Void
  | Fungible (v : RevealedValue)
  | Structured (d : RevealedData)
  | Attachment (a : RevealedAttach)
deriving DecidableEq

/-- `StateData::state_type`. -/
def StateData.state_type : StateData → StateType
  | .Void => .Void
  | .Fungible _ => .Fungible
  | .Structured _ => .Structured
  | .Attachment _ => .Attachment

/-- Modelled from the spec: the ambient `strict_types::TypeSystem`
(external collaborator) — exposes whether a byte payload deserializes as a
given semantic type (`strict_deserialize_type(...).is_ok()`). -/
structure TypeSystem where
  strict_deserialize_ok : SemId → List Nat → Bool

/-- `validation::Failure` (the variants produced by
`StateSchema::validate`). -/
inductive Failure
  | BulletproofsInvalid (opid : OpId) (state_type : AssignmentType) (msg : String)
  | StateTypeMismatch (opid : OpId) (state_type : AssignmentType)
      (expected found : StateType)
  | MediaTypeMismatch (opid : OpId) (state_type : AssignmentType)
      (expected found : MediaType)
  | FungibleTypeMismatch (opid : OpId) (state_type : AssignmentType)
      (expected found : FungibleType)
  | SchemaInvalidOwnedValue (opid : OpId) (state_type : AssignmentType)
      (semId : SemId)
deriving DecidableEq

/-- `validation::Info` (the variant produced by `StateSchema::validate`). -/
inductive Info
  | UncheckableConfidentialState (opid : OpId) (state_type : AssignmentType)
deriving DecidableEq

/-- `validation::Status`: accumulated failures (fatal) and informational
records (non-fatal). -/
structure Status where
  failures : List Failure
  info : List Info
deriving DecidableEq

/-- `validation::Status::new`: the empty status. -/
def Status.new : Status := ⟨[], []⟩

/-- `Status::add_failure`: appends a failure record. -/
def Status.add_failure (s : Status) (f : Failure) : Status :=
  { s with failures := s.failures ++ [f] }

/-- `Status::add_info`: appends an informational record. -/
def Status.add_info (s : Status) (i : Info) : Status :=
  { s with info := s.info ++ [i] }

/-- `Assign<State, Seal>`: an assignment with independently revealed or
concealed state and seal. The state of the two state-concealed variants is
erased to its `StateCommitment`, the state of the two state-revealed
variants to its `StateData` (validation only reads those projections);
seals are irrelevant to validation and modelled as naturals. -/
inductive Assign
  | Confidential (state : StateCommitment) (sealRef : Nat)
  | ConfidentialState (state : StateCommitment) (sealRef : Nat)
  | Revealed (state : StateData) (sealRef : Nat)
  | ConfidentialSeal (state : StateData) (sealRef : Nat)
deriving DecidableEq

/-- `StateSchema::validate`: validates one assignment slot against the
schema. Faithful translation of the Rust match, including the guard
fall-through semantics: a guarded arm whose guard fails falls through to
the next matching arm (in both guarded cases that is the final catch-all
for the attachment arm, and the unguarded fungible arm for the fungible
one). -/
def StateSchema.validate (self : StateSchema) (type_system : TypeSystem)
    (opid : OpId) (state_type : AssignmentType) (data : Assign) : Status :=
  match data with
  | .Confidential state _ | .ConfidentialState state _ =>
    match self, state with
    | .Declarative, .Void => Status.new
    | .Fungible _, .Fungible value =>
      match value.verify_range_proof with
      | .error err =>
        Status.new.add_failure (.BulletproofsInvalid opid state_type err.toString)
      | .ok _ => Status.new
    | .Structured _, .Structured _ =>
      Status.new.add_info (.UncheckableConfidentialState opid state_type)
    | .Attachment _, .Attachment _ =>
      Status.new.add_info (.UncheckableConfidentialState opid state_type)
    | state_schema, found =>
      Status.new.add_failure
        (.StateTypeMismatch opid state_type state_schema.state_type found.state_type)
  | .Revealed state _ | .ConfidentialSeal state _ =>
    match self, state with
    | .Declarative, .Void => Status.new
    | .Attachment media_type, .Attachment attach =>
      if ¬ attach.media_type.conforms media_type then
        Status.new.add_failure
          (.MediaTypeMismatch opid state_type media_type attach.media_type)
      else
        -- Rust guard fall-through: a conforming attachment matches no earlier
        -- arm and lands in the catch-all mismatch arm.
        Status.new.add_failure
          (.StateTypeMismatch opid state_type
            (StateSchema.Attachment media_type).state_type
            (StateData.Attachment attach).state_type)
    | .Fungible schema, .Fungible v =>
      if v.value.fungible_type ≠ schema then
        Status.new.add_failure
          (.FungibleTypeMismatch opid state_type schema v.value.fungible_type)
      else
        -- guard fall-through into the unguarded fungible/fungible arm
        Status.new
    | .Structured sem_id, .Structured d =>
      if ¬ type_system.strict_deserialize_ok sem_id d.bytes then
        Status.new.add_failure (.SchemaInvalidOwnedValue opid state_type sem_id)
      else Status.new
    | state_schema, found =>
      Status.new.add_failure
        (.StateTypeMismatch opid state_type state_schema.state_type found.state_type)

/-- Spec-side statement of the concealed 4x4 validation table, written from
the spec's words for comparison with `StateSchema.validate`: declarative ×
void → no failures, no infos; fungible × fungible → exactly one
`BulletproofsInvalid` failure; structured × structured and attachment ×
attachment → exactly one `UncheckableConfidentialState` info and no
failure; the 12 cross pairings → exactly one `StateTypeMismatch` failure
carrying the expected (schema) and found (commitment) state kinds. -/
def concealedValidationSpec (opid : OpId) (st : AssignmentType)
    (sch : StateSchema) (c : StateCommitment) (status : Status) : Prop :=
  match sch, c with
  | .Declarative, .Void => status.failures = [] ∧ status.info = []
  | .Fungible _, .Fungible _ =>
    (∃ msg, status.failures = [.BulletproofsInvalid opid st msg]) ∧
      status.info = []
  | .Structured _, .Structured _ =>
    status.failures = [] ∧ status.info = [.UncheckableConfidentialState opid st]
  | .Attachment _, .Attachment _ =>
    status.failures = [] ∧ status.info = [.UncheckableConfidentialState opid st]
  | sch, c =>
    status.failures = [.StateTypeMismatch opid st sch.state_type c.state_type] ∧
      status.info = []

/-- C1: for every concealed assignment (either state-concealed variant of
`Assign`), `StateSchema::validate` realises exactly the 4x4
schema-by-commitment-kind table of `concealedValidationSpec`. -/
theorem C1_concealed_validation_table (ts : TypeSystem) (opid : OpId)
    (st : AssignmentType) (sch : StateSchema) (c : StateCommitment)
    (s1 s2 : Nat) :
    concealedValidationSpec opid st sch c
      (sch.validate ts opid st (.Confidential c s1)) ∧
    concealedValidationSpec opid st sch c
      (sch.validate ts opid st (.ConfidentialState c s2)) := by
  cases sch <;> cases c <;>
    simp [concealedValidationSpec, StateSchema.validate,
      ConcealedValue.verify_range_proof, Status.new, Status.add_failure,
      Status.add_info, StateSchema.state_type, StateCommitment.state_type]

/-! ## Bytecode program container (src/vm/script.rs) -/

/-- `aluvm::library::LibId`: a library id (32-byte hash), modelled as a
natural number. -/
abbrev LibId := Nat

/-- Modelled from the spec: `aluvm::library::Lib` (external aluvm crate) — a
bytecode library, represented by its serialized body, an opaque bytecode
blob. -/
structure Lib where
  body : List Nat
deriving DecidableEq

/-- `Lib::serialize`: the serialized body of the library. -/
def Lib.serialize (l : Lib) : List Nat := l.body

/-- `aluvm::library::LibSite`: a library id plus a 16-bit code offset. -/
structure LibSite where
  lib : LibId
  pos : Nat
deriving DecidableEq

/-- `LIBS_MAX_TOTAL`: maximum number of libraries in a single program. -/
def LIBS_MAX_TOTAL : Nat := 1024

/-- `EntryPoint`: the named validation hooks; each non-genesis variant
carries a 16-bit subtype. -/
inductive EntryPoint
  | ValidateGenesis
  | ValidateTransition (ty : TransitionType)
  | ValidateExtension (ty : ExtensionType)
  | ValidateGlobalState (ty : GlobalStateType)
  | ValidateOwnedState (ty : AssignmentType)
deriving DecidableEq

/-- Well-formedness of an `EntryPoint` model value: the subtype fits in the
`u16` the Rust type carries. -/
def EntryPoint.wf : EntryPoint → Bool
  | .ValidateGenesis => true
  | .ValidateTransition t => t < 65536
  | .ValidateExtension t => t < 65536
  | .ValidateGlobalState t => t < 65536
  | .ValidateOwnedState t => t < 65536

/-- `strict_encoding::DecodeError` (the variants this subsystem
produces). -/
inductive DecodeError
  | EnumTagNotKnown (enumName : String) (tag : Nat)
  | DataIntegrityError (msg : String)
deriving DecidableEq

/-- The 3-byte value written by `StrictEncode for EntryPoint`: tag byte
followed by the subtype in little-endian order. -/
def entryPointBytes (ty subty : Nat) : List Nat :=
  [ty, subty % 256, subty / 256 % 256]

/-- `StrictEncode for EntryPoint`: tag 0 for genesis (subtype zero), 1-4 for
transition/extension/global-state/owned-state with their 2-byte
little-endian subtype. -/
def EntryPoint.strict_encode : EntryPoint → List Nat
  | .ValidateGenesis => entryPointBytes 0 0
  | .ValidateTransition ty => entryPointBytes 1 ty
  | .ValidateExtension ty => entryPointBytes 2 ty
  | .ValidateGlobalState ty => entryPointBytes 3 ty
  | .ValidateOwnedState ty => entryPointBytes 4 ty

/-- `StrictDecode for EntryPoint`, given the three bytes read by the
external `[u8; 3]` decoder: reassembles the little-endian subtype, then
dispatches on the tag byte, failing with `EnumTagNotKnown` on a tag outside
0..=4. -/
def EntryPoint.strict_decode (b0 b1 b2 : Nat) : Except DecodeError EntryPoint :=
  let ty := b1 % 256 + 256 * (b2 % 256)
  match b0 with
  | 0 => .ok .ValidateGenesis
  | 1 => .ok (.ValidateTransition ty)
  | 2 => .ok (.ValidateExtension ty)
  | 3 => .ok (.ValidateGlobalState ty)
  | 4 => .ok (.ValidateOwnedState ty)
  | x => .error (.EnumTagNotKnown "EntryPoint" x)

/-- `Confined<BTreeMap<LibId, Lib>, 0, LIBS_MAX_TOTAL>`: the in-memory
library map, modelled as an association list bounded by 1024 entries. -/
abbrev AluLibs := { l : List (LibId × Lib) // l.length ≤ LIBS_MAX_TOTAL }

/-- `Confined::try_from` for the library map: fails on more than
`LIBS_MAX_TOTAL` entries. -/
def aluLibsTryFrom (l : List (LibId × Lib)) : Option AluLibs :=
  if h : l.length ≤ LIBS_MAX_TOTAL then some ⟨l, h⟩ else none

/-- `AluScript`: libraries plus entry-point map (`SmallOrdMap`, at most
65535 entries by type). -/
structure AluScript where
  libs : AluLibs
  entry_points : List (EntryPoint × LibSite)
  ep_le : entry_points.length ≤ 65535

/-- The serialization of each library into a `SmallBlob`
(`Confined<Vec<u8>, 0, 65535>`): fails (an `expect` panic in the source)
when a serialized body exceeds 65535 bytes. -/
def serializeLibs : List (LibId × Lib) → Option (List (LibId × List Nat))
  | [] => some []
  | (id, lib) :: rest =>
    if lib.serialize.length ≤ 65535 then
      match serializeLibs rest with
      | some r => some ((id, lib.serialize) :: r)
      | none => none
    else none

/-- `StrictEncode for AluScript`: serializes each library body into a
bounded blob (abort when one exceeds 65535 bytes), collects them into a
`TinyOrdMap` (abort on more than 255 entries), then writes the two fields;
the model returns the serialized library mapping. -/
def AluScript.strict_encode (s : AluScript) :
    Except Abort (List (LibId × List Nat)) :=
  match serializeLibs s.libs.val with
  | none =>
    .error ⟨"the RGB Core library must not be used to create AluVM library size exceeding 2^16"⟩
  | some pairs =>
    if pairs.length ≤ 255 then .ok pairs
    else
      .error ⟨"the RGB Core library must not be used to create AluVM scripts with more than 255 libraries"⟩

/-- `Program::entrypoint for AluScript`: an unconditional panic. -/
def AluScript.entrypoint (_s : AluScript) : Except Abort LibSite :=
  .error ⟨"AluScript does not have a single entry point"⟩

/-! ## Claims C5, C7, C8, C9 -/

/-- C5 (code bug witness): evaluating `StateSchema::validate` on a revealed
attachment whose media type exactly matches the schema's declared media
type yields a `StateTypeMismatch` failure with expected = found =
attachment (the guarded attachment arm falls through to the catch-all
mismatch arm when the media type conforms), while a non-conforming media
type correctly yields `MediaTypeMismatch`. -/
theorem C5_conforming_attachment_rejected :
    MediaType.conforms ⟨"image", "png"⟩ ⟨"image", "png"⟩ = true ∧
    (StateSchema.Attachment ⟨"image", "png"⟩).validate ⟨fun _ _ => true⟩ 0 1
      (.Revealed (.Attachment ⟨⟨⟨[3]⟩⟩, ⟨"image", "png"⟩, 7⟩) 0) =
      ⟨[.StateTypeMismatch 0 1 .Attachment .Attachment], []⟩ ∧
    (StateSchema.Attachment ⟨"image", "png"⟩).validate ⟨fun _ _ => true⟩ 0 1
      (.Revealed (.Attachment ⟨⟨⟨[3]⟩⟩, ⟨"text", "plain"⟩, 7⟩) 0) =
      ⟨[.MediaTypeMismatch 0 1 ⟨"image", "png"⟩ ⟨"text", "plain"⟩], []⟩ :=
  ⟨by decide, by rfl, by rfl⟩

/-- Recomposition of a `u16` from its little-endian byte split. -/
theorem le16_recompose (n : Nat) (hn : n < 65536) :
    n % 256 % 256 + 256 * (n / 256 % 256 % 256) = n := by omega

/-- C7: the `EntryPoint` wire form is exactly 3 bytes — tag byte 0-4 per
variant followed by the 2-byte little-endian subtype (zero for genesis) —
decode of encode is the identity on every well-formed entry point, and a
tag byte outside 0..=4 fails with the unknown-enum-tag error. -/
theorem C7_entry_point_wire_form :
    EntryPoint.ValidateGenesis.strict_encode = [0, 0, 0] ∧
    (∀ t, (EntryPoint.ValidateTransition t).strict_encode =
      [1, t % 256, t / 256 % 256]) ∧
    (∀ t, (EntryPoint.ValidateExtension t).strict_encode =
      [2, t % 256, t / 256 % 256]) ∧
    (∀ t, (EntryPoint.ValidateGlobalState t).strict_encode =
      [3, t % 256, t / 256 % 256]) ∧
    (∀ t, (EntryPoint.ValidateOwnedState t).strict_encode =
      [4, t % 256, t / 256 % 256]) ∧
    (∀ ep : EntryPoint, ep.wf = true → ∃ b0 b1 b2,
      ep.strict_encode = [b0, b1, b2] ∧
      EntryPoint.strict_decode b0 b1 b2 = .ok ep) ∧
    (∀ b0 b1 b2, 4 < b0 → b0 < 256 →
      EntryPoint.strict_decode b0 b1 b2 =
        .error (.EnumTagNotKnown "EntryPoint" b0)) := by
  refine ⟨rfl, fun t => rfl, fun t => rfl, fun t => rfl, fun t => rfl, ?_, ?_⟩
  · intro ep hwf
    cases ep with
    | ValidateGenesis => exact ⟨0, 0, 0, rfl, rfl⟩
    | ValidateTransition t =>
      refine ⟨1, t % 256, t / 256 % 256, rfl, ?_⟩
      have ht : t < 65536 := of_decide_eq_true hwf
      exact congrArg (fun n => Except.ok (EntryPoint.ValidateTransition n)) (le16_recompose t ht)
    | ValidateExtension t =>
      refine ⟨2, t % 256, t / 256 % 256, rfl, ?_⟩
      have ht : t < 65536 := of_decide_eq_true hwf
      exact congrArg (fun n => Except.ok (EntryPoint.ValidateExtension n)) (le16_recompose t ht)
    | ValidateGlobalState t =>
      refine ⟨3, t % 256, t / 256 % 256, rfl, ?_⟩
      have ht : t < 65536 := of_decide_eq_true hwf
      exact congrArg (fun n => Except.ok (EntryPoint.ValidateGlobalState n)) (le16_recompose t ht)
    | ValidateOwnedState t =>
      refine ⟨4, t % 256, t / 256 % 256, rfl, ?_⟩
      have ht : t < 65536 := of_decide_eq_true hwf
      exact congrArg (fun n => Except.ok (EntryPoint.ValidateOwnedState n)) (le16_recompose t ht)
  · intro b0 b1 b2 h4 h256
    unfold EntryPoint.strict_decode
    split <;> first | rfl | omega

/-- Witness for C7: the owned-state hook with subtype 700 encodes to
`[4, 188, 2]` and round-trips, and tag byte 7 fails to decode. -/
theorem C7_entry_point_wire_form_witness :
    (EntryPoint.ValidateOwnedState 700).wf = true ∧
    (∃ b0 b1 b2,
      (EntryPoint.ValidateOwnedState 700).strict_encode = [b0, b1, b2] ∧
      EntryPoint.strict_decode b0 b1 b2 = .ok (.ValidateOwnedState 700)) ∧
    EntryPoint.strict_decode 7 1 2 = .error (.EnumTagNotKnown "EntryPoint" 7) :=
  ⟨by decide,
    C7_entry_point_wire_form.2.2.2.2.2.1 (.ValidateOwnedState 700) (by decide),
    C7_entry_point_wire_form.2.2.2.2.2.2 7 1 2 (by decide) (by decide)⟩

/-- C8: for every `AluScript`, regardless of its libraries or entry-point
mapping, the single-entry-point accessor aborts, so it never returns a
library site. -/
theorem C8_no_single_entry_point (s : AluScript) :
    s.entrypoint = .error ⟨"AluScript does not have a single entry point"⟩ :=
  rfl

/-- `serializeLibs` succeeds when every body is small enough, preserving the
entry count. -/
theorem serializeLibs_all_small :
    ∀ l : List (LibId × Lib), (∀ p ∈ l, p.2.serialize.length ≤ 65535) →
      ∃ out, serializeLibs l = some out ∧ out.length = l.length := by
  intro l
  induction l with
  | nil => exact fun _ => ⟨[], rfl, rfl⟩
  | cons hd tl ih =>
    intro h
    obtain ⟨out, hout, hlen⟩ := ih fun p hp => h p (List.mem_cons_of_mem hd hp)
    refine ⟨(hd.1, hd.2.serialize) :: out, ?_, by simp [hlen]⟩
    have hhd := h hd (List.mem_cons_self hd tl)
    simp only [serializeLibs, if_pos hhd, hout]

/-- `serializeLibs` fails whenever some body is too large. -/
theorem serializeLibs_oversized :
    ∀ l : List (LibId × Lib), (∃ p ∈ l, 65535 < p.2.serialize.length) →
      serializeLibs l = none := by
  intro l
  induction l with
  | nil => rintro ⟨p, hp, _⟩; cases hp
  | cons hd tl ih =>
    rintro ⟨p, hp, hbig⟩
    rcases List.mem_cons.mp hp with heq | hmem
    · subst heq
      have hneg : ¬ p.2.serialize.length ≤ 65535 := by omega
      simp only [serializeLibs, if_neg hneg]
    · by_cases hhd : hd.2.serialize.length ≤ 65535
      · simp only [serializeLibs, if_pos hhd, ih ⟨p, hmem, hbig⟩]
      · simp only [serializeLibs, if_neg hhd]

/-- `serializeLibs` preserves the entry count whenever it succeeds. -/
theorem serializeLibs_length :
    ∀ (l : List (LibId × Lib)) out, serializeLibs l = some out →
      out.length = l.length := by
  intro l
  induction l with
  | nil => intro out h; cases h; rfl
  | cons hd tl ih =>
    intro out h
    by_cases hhd : hd.2.serialize.length ≤ 65535
    · simp only [serializeLibs, if_pos hhd] at h
      cases htl : serializeLibs tl with
      | none => rw [htl] at h; cases h
      | some r =>
        rw [htl] at h
        cases h
        simp [ih r htl]
    · simp only [serializeLibs, if_neg hhd] at h
      exact Option.noConfusion h

/-- C9: every `AluScript` holds at most 1024 libraries (and constructing the
confined library map from more fails); serialization aborts with more than
255 libraries or any serialized body above 65535 bytes, and succeeds within
those bounds. -/
theorem C9_program_container_bounds :
    (∀ s : AluScript, s.libs.val.length ≤ 1024) ∧
    (∀ l : List (LibId × Lib), 1024 < l.length → aluLibsTryFrom l = none) ∧
    (∀ s : AluScript, 255 < s.libs.val.length →
      ∃ a, s.strict_encode = .error a) ∧
    (∀ s : AluScript, (∃ p ∈ s.libs.val, 65535 < p.2.serialize.length) →
      ∃ a, s.strict_encode = .error a) ∧
    (∀ s : AluScript, s.libs.val.length ≤ 255 →
      (∀ p ∈ s.libs.val, p.2.serialize.length ≤ 65535) →
      ∃ out, s.strict_encode = .ok out) := by
  refine ⟨fun s => s.libs.property, ?_, ?_, ?_, ?_⟩
  · intro l h
    have hneg : ¬ l.length ≤ LIBS_MAX_TOTAL := by
      unfold LIBS_MAX_TOTAL
      omega
    unfold aluLibsTryFrom
    rw [dif_neg hneg]
  · intro s h
    cases hser : serializeLibs s.libs.val with
    | none =>
      refine ⟨⟨"the RGB Core library must not be used to create AluVM library size exceeding 2^16"⟩, ?_⟩
      unfold AluScript.strict_encode
      rw [hser]
    | some pairs =>
      have hp := serializeLibs_length s.libs.val pairs hser
      have hn : ¬ pairs.length ≤ 255 := by omega
      refine ⟨⟨"the RGB Core library must not be used to create AluVM scripts with more than 255 libraries"⟩, ?_⟩
      unfold AluScript.strict_encode
      rw [hser]
      dsimp only
      rw [if_neg hn]
  · intro s h
    refine ⟨⟨"the RGB Core library must not be used to create AluVM library size exceeding 2^16"⟩, ?_⟩
    unfold AluScript.strict_encode
    rw [serializeLibs_oversized s.libs.val h]
  · intro s hlen hsmall
    obtain ⟨out, hout, holen⟩ := serializeLibs_all_small s.libs.val hsmall
    have hle : out.length ≤ 255 := by omega
    refine ⟨out, ?_⟩
    unfold AluScript.strict_encode
    rw [hout]
    dsimp only
    rw [if_pos hle]

/-- A library map with 1025 entries, used to witness the construction
bound. -/
def libs1025 : List (LibId × Lib) := (List.range 1025).map fun i => (i, ⟨[]⟩)

/-- An `AluScript` with 256 empty libraries, used to witness the wire-form
count bound. -/
def script256 : AluScript :=
  ⟨⟨(List.range 256).map fun i => (i, ⟨[]⟩),
    by rw [List.length_map, List.length_range]; decide⟩, [], by decide⟩

/-- An `AluScript` with one library whose serialized body is 65536 bytes,
used to witness the blob-size bound. -/
def scriptBigLib : AluScript :=
  ⟨⟨[(0, ⟨List.replicate 65536 0⟩)], by decide⟩, [], by decide⟩

/-- An `AluScript` with one small library, used to witness serialization
success. -/
def scriptSmall : AluScript :=
  ⟨⟨[(0, ⟨[7]⟩)], by decide⟩, [], by decide⟩

/-- Witness for C9: the construction and serialization bounds evaluated at
concrete programs. -/
theorem C9_program_container_bounds_witness :
    aluLibsTryFrom libs1025 = none ∧
    (∃ a, script256.strict_encode = .error a) ∧
    (∃ a, scriptBigLib.strict_encode = .error a) ∧
    (∃ out, scriptSmall.strict_encode = .ok out) :=
  ⟨C9_program_container_bounds.2.1 libs1025
      (by unfold libs1025; rw [List.length_map, List.length_range]; decide),
    C9_program_container_bounds.2.2.1 script256
      (by show 255 < ((List.range 256).map fun i => (i, (⟨[]⟩ : Lib))).length
          rw [List.length_map, List.length_range]; decide),
    C9_program_container_bounds.2.2.2.1 scriptBigLib
      ⟨(0, ⟨List.replicate 65536 0⟩), List.mem_singleton_self _, by
        show 65535 < (List.replicate 65536 (0 : Nat)).length
        rw [List.length_replicate]; decide⟩,
    C9_program_container_bounds.2.2.2.2 scriptSmall (by decide) (by decide)⟩

end RgbCore
